import Mathlib

/-!
Verification of the configuration resolution and validation pipeline of
gobot-bme280 (`internal/config/config.go`), as a shallow embedding in Lean 4.

The process environment is modelled as a total function `String → String`,
matching Go's `os.Getenv`, which returns the empty string both for unset
variables and for variables set to the empty string.  Fallible Go functions
returning `(T, error)` are modelled as `Except String T`.
-/

namespace GobotBme280

/-- `const BotName = "gobot_bme280"` -/
def BotName : String := "gobot_bme280"

/-- `const defaultLogSensor = false` -/
def defaultLogSensor : Bool := false

/-- `const defaultIntervalSeconds = 30` -/
def defaultIntervalSeconds : Int := 30

/-- `const defaultMetricConfig = ":9192"` -/
def defaultMetricConfig : String := ":9192"

/-- The embedded `MqttConfig` struct.  Its Go declaration is not under the
given sources; the field set (Host, Topic, ClientKeyFile, ClientCertFile,
ServerCaFile) is taken from its uses in `config.go` and `main.go`. -/
structure MqttConfig where
  Host : String := ""
  Topic : String := ""
  ClientKeyFile : String := ""
  ClientCertFile : String := ""
  ServerCaFile : String := ""
  deriving Repr, DecidableEq

/-- The embedded `SensorConfig` struct.  Modelled from the spec: the Go
declaration is not under the given sources; the spec describes a nested
sensor bus configuration (bus number, device address). -/
structure SensorConfig where
  GpioBus : Int := 1
  GpioAddress : Int := 118
  deriving Repr, DecidableEq

/-- Modelled from the spec: `defaultSensorConfig()` is not under the given
sources; it produces the compiled-in default sensor sub-config. -/
def defaultSensorConfig : SensorConfig := {}

/-- The `Config` struct of `config.go`.  Go embeds `MqttConfig` and
`SensorConfig`; here they are explicit fields of the same names. -/
structure Config where
  Placement : String
  MetricConfig : String
  IntervalSecs : Int
  LogSensor : Bool
  DisableMqtt : Bool
  Mqtt : MqttConfig
  Sensor : SensorConfig
  deriving Repr, DecidableEq

/-- `DefaultConfig()`: zero values for all fields except the listed ones. -/
def DefaultConfig : Config :=
  { Placement := ""
    MetricConfig := defaultMetricConfig
    IntervalSecs := defaultIntervalSeconds
    LogSensor := defaultLogSensor
    DisableMqtt := false
    Mqtt := {}
    Sensor := defaultSensorConfig }

/-- The process environment, as read by `os.Getenv`: unset variables read as
the empty string. -/
def Env : Type := String → String

/-- `strings.ToUpper`, modelled on the ASCII range (every string this program
passes through it is ASCII). -/
def goToUpper (s : String) : String :=
  ⟨s.data.map Char.toUpper⟩

/-- `computeEnvName`: prefix the uppercased bot name to the uppercased key. -/
def computeEnvName (name : String) : String :=
  goToUpper BotName ++ "_" ++ goToUpper name

/-- `fromEnv`: read a variable; an empty value reads as "not defined". -/
def fromEnv (env : Env) (name : String) : Except String String :=
  let n := computeEnvName name
  let val := env n
  if val = "" then .error "not defined" else .ok val

/-- `strconv.Atoi`: optional sign followed by at least one decimal digit.
(Overflow of the 64-bit range is not modelled; no claim depends on it.) -/
def atoi (s : String) : Except String Int :=
  let (sign, digits) :=
    if s.startsWith "-" then ((-1 : Int), s.drop 1)
    else if s.startsWith "+" then ((1 : Int), s.drop 1)
    else ((1 : Int), s)
  if digits = "" then .error ("parsing " ++ s ++ ": invalid syntax")
  else if digits.all Char.isDigit then
    .ok (sign * (digits.foldl (fun a c => a * 10 + (c.toNat - 48)) 0 : Nat))
  else .error ("parsing " ++ s ++ ": invalid syntax")

/-- `strconv.ParseBool`: the exact token set Go accepts. -/
def parseBool (s : String) : Except String Bool :=
  if s = "1" ∨ s = "t" ∨ s = "T" ∨ s = "true" ∨ s = "TRUE" ∨ s = "True" then
    .ok true
  else if s = "0" ∨ s = "f" ∨ s = "F" ∨ s = "false" ∨ s = "FALSE" ∨ s = "False" then
    .ok false
  else .error ("parsing " ++ s ++ ": invalid syntax")

/-- `fromEnvInt`: `fromEnv` then `strconv.Atoi`; any failure propagates. -/
def fromEnvInt (env : Env) (name : String) : Except String Int :=
  match fromEnv env name with
  | .error e => .error e
  | .ok val =>
    match atoi val with
    | .error e => .error e
    | .ok parsed => .ok parsed

/-- `fromEnvBool`: `fromEnv` then `strconv.ParseBool`; any failure propagates. -/
def fromEnvBool (env : Env) (name : String) : Except String Bool :=
  match fromEnv env name with
  | .error e => .error e
  | .ok val =>
    match parseBool val with
    | .error e => .error e
    | .ok parsed => .ok parsed

/-- Modelled from the spec: `SensorConfig.ConfigFromEnv()` is not under the
given sources; the spec delegates sensor sub-config fields to the same
best-effort per-field environment override scheme. -/
def SensorConfig.applyEnv (env : Env) (conf : SensorConfig) : SensorConfig :=
  let conf := match fromEnvInt env "GPIO_BUS" with
    | .ok v => { conf with GpioBus := v }
    | .error _ => conf
  match fromEnvInt env "GPIO_ADDRESS" with
  | .ok v => { conf with GpioAddress := v }
  | .error _ => conf

/-- The body of `ConfigFromEnv` as a pure update of a starting config: each
recognized variable that reads and converts successfully overwrites its
field, in the source's order. -/
def applyEnv (env : Env) (start : Config) : Config :=
  let conf := start
  let conf := match fromEnv env "placement" with
    | .ok v => { conf with Placement := v }
    | .error _ => conf
  let conf := match fromEnvBool env "LOG_SENSOR" with
    | .ok v => { conf with LogSensor := v }
    | .error _ => conf
  let conf := match fromEnvInt env "INTERVAL_S" with
    | .ok v => { conf with IntervalSecs := v }
    | .error _ => conf
  let conf := match fromEnvBool env "DISABLE_MQTT" with
    | .ok v => { conf with DisableMqtt := v }
    | .error _ => conf
  let conf := match fromEnv env "MQTT_HOST" with
    | .ok v => { conf with Mqtt := { conf.Mqtt with Host := v } }
    | .error _ => conf
  let conf := match fromEnv env "MQTT_TOPIC" with
    | .ok v => { conf with Mqtt := { conf.Mqtt with Topic := v } }
    | .error _ => conf
  let conf := match fromEnv env "METRICS_ADDR" with
    | .ok v => { conf with MetricConfig := v }
    | .error _ => conf
  let conf := match fromEnv env "SSL_CLIENT_KEY_FILE" with
    | .ok v => { conf with Mqtt := { conf.Mqtt with ClientKeyFile := v } }
    | .error _ => conf
  let conf := match fromEnv env "SSL_CLIENT_CERT_FILE" with
    | .ok v => { conf with Mqtt := { conf.Mqtt with ClientCertFile := v } }
    | .error _ => conf
  { conf with Sensor := conf.Sensor.applyEnv env }

/-- `ConfigFromEnv()`: start from the defaults and apply the environment. -/
def ConfigFromEnv (env : Env) : Config :=
  applyEnv env DefaultConfig

/-- A decoded configuration file: the structured record `json.Unmarshal`
produces, with one optional entry per schema field (absent JSON keys leave
the target struct field untouched). -/
structure FileConf where
  placement : Option String := none
  metrics_addr : Option String := none
  interval_s : Option Int := none
  log_sensor : Option Bool := none
  disable_mqtt : Option Bool := none
  mqtt_host : Option String := none
  mqtt_topic : Option String := none
  ssl_client_key_file : Option String := none
  ssl_client_cert_file : Option String := none
  ssl_server_ca_file : Option String := none
  gpio_bus : Option Int := none
  gpio_address : Option Int := none
  deriving Repr, DecidableEq

/-- `json.Unmarshal(fileContent, &ret)` on a pre-populated `ret`: each field
the file provides overwrites the target, every other field is untouched. -/
def mergeFileConf (start : Config) (fc : FileConf) : Config :=
  { Placement := fc.placement.getD start.Placement
    MetricConfig := fc.metrics_addr.getD start.MetricConfig
    IntervalSecs := fc.interval_s.getD start.IntervalSecs
    LogSensor := fc.log_sensor.getD start.LogSensor
    DisableMqtt := fc.disable_mqtt.getD start.DisableMqtt
    Mqtt :=
      { Host := fc.mqtt_host.getD start.Mqtt.Host
        Topic := fc.mqtt_topic.getD start.Mqtt.Topic
        ClientKeyFile := fc.ssl_client_key_file.getD start.Mqtt.ClientKeyFile
        ClientCertFile := fc.ssl_client_cert_file.getD start.Mqtt.ClientCertFile
        ServerCaFile := fc.ssl_server_ca_file.getD start.Mqtt.ServerCaFile }
    Sensor :=
      { GpioBus := fc.gpio_bus.getD start.Sensor.GpioBus
        GpioAddress := fc.gpio_address.getD start.Sensor.GpioAddress } }

/-- `ReadJsonConfig(filePath)`: the outcome of `os.ReadFile` is passed in as
`readResult` and the JSON decoder as `decode`.  A read failure is wrapped;
a decode failure is returned as-is (the caller sees a non-nil error, so the
partially filled struct is never usable); otherwise the decoded fields are
unmarshalled over a fresh `DefaultConfig`. -/
def ReadJsonConfig (readResult : Except String String)
    (decode : String → Except String FileConf) : Except String Config :=
  match readResult with
  | .error err => .error ("could not read config from file: " ++ err)
  | .ok fileContent =>
    match decode fileContent with
    | .error err => .error err
    | .ok fc => .ok (mergeFileConf DefaultConfig fc)

/-- What the resolver entry point sees of the config-file argument. -/
inductive FileInput where
  /-- No file path was supplied on the command line. -/
  | noPath : FileInput
  /-- A path was supplied and `os.ReadFile` failed with this message. -/
  | readError (msg : String) : FileInput
  /-- A path was supplied and this is the file's content. -/
  | content (bytes : String) : FileInput

/-- Modelled from the spec: the resolver entry point (`config.Read`, not
under the given sources) layers the sources in strict precedence — defaults,
then the file when a path is supplied, then the environment; a file read or
decode failure aborts resolution before environment layering. -/
def resolve (input : FileInput) (decode : String → Except String FileConf)
    (env : Env) : Except String Config :=
  match input with
  | .noPath => .ok (ConfigFromEnv env)
  | .readError msg =>
    match ReadJsonConfig (.error msg) decode with
    | .error err => .error err
    | .ok conf => .ok (applyEnv env conf)
  | .content bytes =>
    match ReadJsonConfig (.ok bytes) decode with
    | .error err => .error err
    | .ok conf => .ok (applyEnv env conf)

/-- Modelled from the spec: `SensorConfig.Validate()` is not under the given
sources; the spec describes it as bus/address range checks that must pass
independently of the MQTT state. -/
def SensorConfig.Validate (conf : SensorConfig) : Except String Unit :=
  if conf.GpioBus < 0 then
    .error ("invalid gpio bus: " ++ toString conf.GpioBus)
  else if conf.GpioAddress ≤ 0 then
    .error ("invalid gpio address: " ++ toString conf.GpioAddress)
  else .ok ()

/-- Modelled from the spec: `MqttConfig.Validate()` is not under the given
sources; the spec requires a non-empty host, a client key whenever a client
cert is set (and conversely), and client TLS material whenever a server CA
is set. -/
def MqttConfig.Validate (conf : MqttConfig) : Except String Unit :=
  if conf.Host = "" then .error "empty host provided"
  else if conf.ClientCertFile ≠ "" ∧ conf.ClientKeyFile = "" then
    .error "client cert file set but no client key file"
  else if conf.ClientKeyFile ≠ "" ∧ conf.ClientCertFile = "" then
    .error "client key file set but no client cert file"
  else if conf.ServerCaFile ≠ "" ∧ conf.ClientCertFile = "" then
    .error "server ca file set but no client tls material"
  else .ok ()

/-- `Config.Validate()`: the rule sequence of `config.go`, first failure
wins. -/
def Config.Validate (conf : Config) : Except String Unit :=
  if conf.Placement = "" then
    .error "empty placement provided"
  else if conf.IntervalSecs < 30 then
    .error ("invalid interval: must not be lower than 30 but is "
      ++ toString conf.IntervalSecs)
  else if conf.IntervalSecs > 300 then
    .error ("invalid interval: mut not be greater than 300 but is "
      ++ toString conf.IntervalSecs)
  else
    match conf.Sensor.Validate with
    | .error err => .error err
    | .ok () =>
      if conf.DisableMqtt then .ok ()
      else conf.Mqtt.Validate

/-! ## Helper lemmas -/

/-- The per-field override pattern of `ConfigFromEnv`: a value that read and
converted successfully replaces the old one, any failure keeps the old one. -/
def override (e : Except String α) (old : α) : α :=
  match e with
  | .ok v => v
  | .error _ => old

/-- A successful `fromEnv` returns the variable's exact value, which is
necessarily non-empty. -/
theorem fromEnv_ok_iff (env : Env) (name v : String) :
    fromEnv env name = .ok v ↔ env (computeEnvName name) = v ∧ v ≠ "" := by
  simp only [fromEnv]
  constructor
  · intro h
    split at h
    · exact absurd h (by simp)
    · rename_i hc
      injection h with h'
      exact ⟨h', h' ▸ hc⟩
  · rintro ⟨hv, hne⟩
    rw [hv]
    simp [hne]

/-- A variable reading as the empty string fails the `fromEnv` lookup. -/
theorem fromEnv_empty (env : Env) (name : String)
    (h : env (computeEnvName name) = "") :
    fromEnv env name = .error "not defined" := by
  simp [fromEnv, h]

/-- `fromEnvInt` fails whenever the underlying lookup fails. -/
theorem fromEnvInt_empty (env : Env) (name : String)
    (h : env (computeEnvName name) = "") :
    fromEnvInt env name = .error "not defined" := by
  simp [fromEnvInt, fromEnv_empty env name h]

/-- `fromEnvBool` fails whenever the underlying lookup fails. -/
theorem fromEnvBool_empty (env : Env) (name : String)
    (h : env (computeEnvName name) = "") :
    fromEnvBool env name = .error "not defined" := by
  simp [fromEnvBool, fromEnv_empty env name h]

set_option maxHeartbeats 2000000 in
/-- Master characterization of the environment layer: every field of the
result is its own variable's override of the prior value, and the server CA
file is never touched. -/
theorem applyEnv_eq (env : Env) (conf : Config) :
    applyEnv env conf =
      { Placement := override (fromEnv env "placement") conf.Placement
        MetricConfig := override (fromEnv env "METRICS_ADDR") conf.MetricConfig
        IntervalSecs := override (fromEnvInt env "INTERVAL_S") conf.IntervalSecs
        LogSensor := override (fromEnvBool env "LOG_SENSOR") conf.LogSensor
        DisableMqtt := override (fromEnvBool env "DISABLE_MQTT") conf.DisableMqtt
        Mqtt :=
          { Host := override (fromEnv env "MQTT_HOST") conf.Mqtt.Host
            Topic := override (fromEnv env "MQTT_TOPIC") conf.Mqtt.Topic
            ClientKeyFile :=
              override (fromEnv env "SSL_CLIENT_KEY_FILE") conf.Mqtt.ClientKeyFile
            ClientCertFile :=
              override (fromEnv env "SSL_CLIENT_CERT_FILE") conf.Mqtt.ClientCertFile
            ServerCaFile := conf.Mqtt.ServerCaFile }
        Sensor :=
          { GpioBus := override (fromEnvInt env "GPIO_BUS") conf.Sensor.GpioBus
            GpioAddress :=
              override (fromEnvInt env "GPIO_ADDRESS") conf.Sensor.GpioAddress } } := by
  unfold applyEnv SensorConfig.applyEnv override
  cases fromEnv env "placement" <;>
    cases fromEnvBool env "LOG_SENSOR" <;>
    cases fromEnvInt env "INTERVAL_S" <;>
    cases fromEnvBool env "DISABLE_MQTT" <;>
    cases fromEnv env "MQTT_HOST" <;>
    cases fromEnv env "MQTT_TOPIC" <;>
    cases fromEnv env "METRICS_ADDR" <;>
    cases fromEnv env "SSL_CLIENT_KEY_FILE" <;>
    cases fromEnv env "SSL_CLIENT_CERT_FILE" <;>
    cases fromEnvInt env "GPIO_BUS" <;>
    cases fromEnvInt env "GPIO_ADDRESS" <;>
    rfl

/-! ## Claim theorems -/

/-- C1: `Validate` evaluates its rules in the fixed order — placement
non-empty, interval lower bound, interval upper bound, sensor
sub-validation, mqtt-disabled check, MQTT sub-validation — and returns
exactly the first failing rule's error; in particular an empty placement is
always rejected with "empty placement provided" regardless of every other
field. -/
theorem C1_validate_order :
    (∀ conf : Config, conf.Placement = "" →
      conf.Validate = .error "empty placement provided") ∧
    (∀ conf : Config, conf.Placement ≠ "" → conf.IntervalSecs < 30 →
      conf.Validate = .error ("invalid interval: must not be lower than 30 but is "
        ++ toString conf.IntervalSecs)) ∧
    (∀ conf : Config, conf.Placement ≠ "" → 30 ≤ conf.IntervalSecs →
      300 < conf.IntervalSecs →
      conf.Validate = .error ("invalid interval: mut not be greater than 300 but is "
        ++ toString conf.IntervalSecs)) ∧
    (∀ (conf : Config) (e : String), conf.Placement ≠ "" →
      30 ≤ conf.IntervalSecs → conf.IntervalSecs ≤ 300 →
      conf.Sensor.Validate = .error e → conf.Validate = .error e) ∧
    (∀ conf : Config, conf.Placement ≠ "" →
      30 ≤ conf.IntervalSecs → conf.IntervalSecs ≤ 300 →
      conf.Sensor.Validate = .ok () → conf.DisableMqtt = true →
      conf.Validate = .ok ()) ∧
    (∀ conf : Config, conf.Placement ≠ "" →
      30 ≤ conf.IntervalSecs → conf.IntervalSecs ≤ 300 →
      conf.Sensor.Validate = .ok () → conf.DisableMqtt = false →
      conf.Validate = conf.Mqtt.Validate) := by
  refine ⟨?_, ?_, ?_, ?_, ?_, ?_⟩
  · intro conf h
    simp [Config.Validate, h]
  · intro conf h1 h2
    simp [Config.Validate, h1, h2]
  · intro conf h1 h2 h3
    simp [Config.Validate, h1, not_lt.2 h2, h3]
  · intro conf e h1 h2 h3 h4
    simp [Config.Validate, h1, not_lt.2 h2, not_lt.2 h3, h4]
  · intro conf h1 h2 h3 h4 h5
    simp [Config.Validate, h1, not_lt.2 h2, not_lt.2 h3, h4, h5]
  · intro conf h1 h2 h3 h4 h5
    simp [Config.Validate, h1, not_lt.2 h2, not_lt.2 h3, h4, h5]

/-- C1 witness: a config that violates every rule is rejected with the first
rule's message only. -/
theorem C1_validate_order_witness :
    Config.Validate
      { Placement := "", MetricConfig := "", IntervalSecs := 999,
        LogSensor := false, DisableMqtt := false, Mqtt := {},
        Sensor := { GpioBus := -1, GpioAddress := 0 } }
      = .error "empty placement provided" :=
  C1_validate_order.1 _ rfl

/-- C3: the interval range is inclusive at both ends: any value in
[30, 300] passes the interval rules, and any value outside is rejected with
an error message carrying the offending value. -/
theorem C3_interval_bounds :
    (∀ conf : Config, conf.Placement ≠ "" → conf.Sensor.Validate = .ok () →
      (conf.DisableMqtt = true ∨ conf.Mqtt.Validate = .ok ()) →
      30 ≤ conf.IntervalSecs → conf.IntervalSecs ≤ 300 →
      conf.Validate = .ok ()) ∧
    (∀ conf : Config, conf.Placement ≠ "" → conf.IntervalSecs < 30 →
      ∃ s, conf.Validate = .error (s ++ toString conf.IntervalSecs)) ∧
    (∀ conf : Config, conf.Placement ≠ "" → 300 < conf.IntervalSecs →
      ∃ s, conf.Validate = .error (s ++ toString conf.IntervalSecs)) := by
  refine ⟨?_, ?_, ?_⟩
  · intro conf h1 h2 h3 h4 h5
    rcases h3 with h3 | h3 <;>
      simp [Config.Validate, h1, not_lt.2 h4, not_lt.2 h5, h2, h3]
  · intro conf h1 h2
    exact ⟨"invalid interval: must not be lower than 30 but is ",
      by simp [Config.Validate, h1, h2]⟩
  · intro conf h1 h2
    have h3 : ¬ conf.IntervalSecs < 30 := by omega
    exact ⟨"invalid interval: mut not be greater than 300 but is ",
      by simp [Config.Validate, h1, h3, h2]⟩

/-- C3 witness: 30 and 300 are accepted, 29 and 301 rejected with the value
in the message. -/
theorem C3_interval_bounds_witness :
    (Config.Validate
      { Placement := "room", MetricConfig := ":9192", IntervalSecs := 30,
        LogSensor := false, DisableMqtt := true, Mqtt := {}, Sensor := {} }
      = .ok ()) ∧
    (Config.Validate
      { Placement := "room", MetricConfig := ":9192", IntervalSecs := 300,
        LogSensor := false, DisableMqtt := true, Mqtt := {}, Sensor := {} }
      = .ok ()) ∧
    (∃ s, Config.Validate
      { Placement := "room", MetricConfig := ":9192", IntervalSecs := 29,
        LogSensor := false, DisableMqtt := true, Mqtt := {}, Sensor := {} }
      = .error (s ++ toString (29 : Int))) ∧
    (∃ s, Config.Validate
      { Placement := "room", MetricConfig := ":9192", IntervalSecs := 301,
        LogSensor := false, DisableMqtt := true, Mqtt := {}, Sensor := {} }
      = .error (s ++ toString (301 : Int))) :=
  ⟨C3_interval_bounds.1 _ (by decide) rfl (Or.inl rfl) (by decide) (by decide),
   C3_interval_bounds.1 _ (by decide) rfl (Or.inl rfl) (by decide) (by decide),
   C3_interval_bounds.2.1 _ (by decide) (by decide),
   C3_interval_bounds.2.2 _ (by decide) (by decide)⟩

/-- C4: with `DisableMqtt = true` and placement, interval and sensor
sub-config valid, `Validate` succeeds no matter what the MQTT sub-config
holds: the MQTT rules are skipped entirely. -/
theorem C4_mqtt_disabled_skips_mqtt_validation :
    ∀ conf : Config, conf.DisableMqtt = true → conf.Placement ≠ "" →
      30 ≤ conf.IntervalSecs → conf.IntervalSecs ≤ 300 →
      conf.Sensor.Validate = .ok () → conf.Validate = .ok () := by
  intro conf h1 h2 h3 h4 h5
  simp [Config.Validate, h1, h2, not_lt.2 h3, not_lt.2 h4, h5]

/-- C4 witness: an MQTT sub-config with an empty host is itself invalid, yet
the whole config validates once MQTT is disabled. -/
theorem C4_mqtt_disabled_skips_mqtt_validation_witness :
    MqttConfig.Validate {} = .error "empty host provided" ∧
    Config.Validate
      { Placement := "garage", MetricConfig := ":9192", IntervalSecs := 60,
        LogSensor := false, DisableMqtt := true, Mqtt := {}, Sensor := {} }
      = .ok () :=
  ⟨rfl,
   C4_mqtt_disabled_skips_mqtt_validation _ rfl (by decide) (by decide)
     (by decide) rfl⟩

/-- C6: the environment variable consulted for a field key is the uppercased
process identity, an underscore and the uppercased key; the mapping is a
function of the key's uppercasing only (hence case-insensitive in the key). -/
theorem C6_env_var_naming :
    (∀ name : String, computeEnvName name = "GOBOT_BME280_" ++ goToUpper name) ∧
    (∀ s t : String, goToUpper s = goToUpper t →
      computeEnvName s = computeEnvName t) ∧
    computeEnvName "placement" = "GOBOT_BME280_PLACEMENT" := by
  refine ⟨?_, ?_, by decide⟩
  · intro name
    rw [computeEnvName, show goToUpper BotName ++ "_" = "GOBOT_BME280_" by decide]
  · intro s t h
    rw [computeEnvName, computeEnvName, h]

/-- C6 witness: the mapping is case-insensitive on the concrete key. -/
theorem C6_env_var_naming_witness :
    computeEnvName "Placement" = computeEnvName "PLACEMENT" :=
  C6_env_var_naming.2.1 "Placement" "PLACEMENT" (by decide)

/-- C7: with no config file and no recognized environment variable set,
resolution returns exactly `DefaultConfig`: empty placement, metrics address
":9192", interval 30, sensor logging off, MQTT enabled, default sensor
sub-config. -/
theorem C7_defaults_roundtrip :
    ∀ env : Env, (∀ name : String, env (computeEnvName name) = "") →
      (∀ decode : String → Except String FileConf,
        resolve .noPath decode env = .ok DefaultConfig) ∧
      ConfigFromEnv env = DefaultConfig ∧
      DefaultConfig.Placement = "" ∧ DefaultConfig.MetricConfig = ":9192" ∧
      DefaultConfig.IntervalSecs = 30 ∧ DefaultConfig.LogSensor = false ∧
      DefaultConfig.DisableMqtt = false ∧
      DefaultConfig.Sensor = defaultSensorConfig := by
  intro env h
  have hconf : ConfigFromEnv env = DefaultConfig := by
    rw [ConfigFromEnv, applyEnv_eq]
    simp [override, fromEnv_empty, fromEnvInt_empty, fromEnvBool_empty, h]
  exact ⟨fun decode => by simp [resolve, hconf], hconf, rfl, rfl, rfl, rfl,
    rfl, rfl⟩

/-- C7 witness: the all-empty environment resolves to the defaults. -/
theorem C7_defaults_roundtrip_witness :
    ConfigFromEnv (fun _ => "") = DefaultConfig :=
  (C7_defaults_roundtrip (fun _ => "") (fun _ => rfl)).2.1

/-- C2: sources layer in strict precedence — defaults, then file, then
environment.  With a decodable file, resolution applies the environment on
top of the file merged over the defaults, and every field of the result is
the environment value when its variable parses, else the file value when
the file provides the field, else the default. -/
theorem C2_layering_precedence :
    ∀ (bytes : String) (decode : String → Except String FileConf) (env : Env)
      (fc : FileConf), decode bytes = .ok fc →
      resolve (.content bytes) decode env
        = .ok (applyEnv env (mergeFileConf DefaultConfig fc)) ∧
      ∀ conf : Config, resolve (.content bytes) decode env = .ok conf →
        conf.Placement
          = override (fromEnv env "placement")
              (fc.placement.getD DefaultConfig.Placement) ∧
        conf.MetricConfig
          = override (fromEnv env "METRICS_ADDR")
              (fc.metrics_addr.getD DefaultConfig.MetricConfig) ∧
        conf.IntervalSecs
          = override (fromEnvInt env "INTERVAL_S")
              (fc.interval_s.getD DefaultConfig.IntervalSecs) ∧
        conf.LogSensor
          = override (fromEnvBool env "LOG_SENSOR")
              (fc.log_sensor.getD DefaultConfig.LogSensor) ∧
        conf.DisableMqtt
          = override (fromEnvBool env "DISABLE_MQTT")
              (fc.disable_mqtt.getD DefaultConfig.DisableMqtt) ∧
        conf.Mqtt.Host
          = override (fromEnv env "MQTT_HOST")
              (fc.mqtt_host.getD DefaultConfig.Mqtt.Host) ∧
        conf.Mqtt.Topic
          = override (fromEnv env "MQTT_TOPIC")
              (fc.mqtt_topic.getD DefaultConfig.Mqtt.Topic) ∧
        conf.Mqtt.ClientKeyFile
          = override (fromEnv env "SSL_CLIENT_KEY_FILE")
              (fc.ssl_client_key_file.getD DefaultConfig.Mqtt.ClientKeyFile) ∧
        conf.Mqtt.ClientCertFile
          = override (fromEnv env "SSL_CLIENT_CERT_FILE")
              (fc.ssl_client_cert_file.getD DefaultConfig.Mqtt.ClientCertFile) ∧
        conf.Mqtt.ServerCaFile
          = fc.ssl_server_ca_file.getD DefaultConfig.Mqtt.ServerCaFile := by
  intro bytes decode env fc hdec
  have h1 : resolve (.content bytes) decode env
      = .ok (applyEnv env (mergeFileConf DefaultConfig fc)) := by
    simp [resolve, ReadJsonConfig, hdec]
  refine ⟨h1, ?_⟩
  intro conf hconf
  rw [h1] at hconf
  injection hconf with hc
  subst hc
  simp [applyEnv_eq, mergeFileConf]

/-- C2 witness: the spec's example — file provides placement "garage" and
interval 60, the environment sets only the log-sensor flag; the resolved
config has the file's placement and interval, the environment's flag and
the default metrics address. -/
theorem C2_layering_precedence_witness :
    resolve (.content "fileBytes")
      (fun _ => .ok { placement := some "garage", interval_s := some 60 })
      (fun n => if n = "GOBOT_BME280_LOG_SENSOR" then "true" else "")
      = .ok { Placement := "garage", MetricConfig := ":9192",
              IntervalSecs := 60, LogSensor := true, DisableMqtt := false,
              Mqtt := {}, Sensor := {} } := by
  have h := (C2_layering_precedence "fileBytes"
    (fun _ => .ok { placement := some "garage", interval_s := some 60 })
    (fun n => if n = "GOBOT_BME280_LOG_SENSOR" then "true" else "")
    { placement := some "garage", interval_s := some 60 } rfl).1
  rw [h]
  rfl

/-- C5: environment overrides are independent per field — a variable that is
absent or fails conversion leaves exactly its own field at the prior value
and aborts nothing, and a variable that parses overrides exactly its own
field. -/
theorem C5_env_overrides_independent :
    ∀ (env : Env) (conf : Config),
      (∀ e, fromEnvInt env "INTERVAL_S" = .error e →
        (applyEnv env conf).IntervalSecs = conf.IntervalSecs) ∧
      (∀ v, fromEnvInt env "INTERVAL_S" = .ok v →
        (applyEnv env conf).IntervalSecs = v) ∧
      (applyEnv env conf).Placement
        = override (fromEnv env "placement") conf.Placement ∧
      (applyEnv env conf).MetricConfig
        = override (fromEnv env "METRICS_ADDR") conf.MetricConfig ∧
      (applyEnv env conf).IntervalSecs
        = override (fromEnvInt env "INTERVAL_S") conf.IntervalSecs ∧
      (applyEnv env conf).LogSensor
        = override (fromEnvBool env "LOG_SENSOR") conf.LogSensor ∧
      (applyEnv env conf).DisableMqtt
        = override (fromEnvBool env "DISABLE_MQTT") conf.DisableMqtt ∧
      (applyEnv env conf).Mqtt.Host
        = override (fromEnv env "MQTT_HOST") conf.Mqtt.Host ∧
      (applyEnv env conf).Mqtt.Topic
        = override (fromEnv env "MQTT_TOPIC") conf.Mqtt.Topic ∧
      (applyEnv env conf).Mqtt.ClientKeyFile
        = override (fromEnv env "SSL_CLIENT_KEY_FILE") conf.Mqtt.ClientKeyFile ∧
      (applyEnv env conf).Mqtt.ClientCertFile
        = override (fromEnv env "SSL_CLIENT_CERT_FILE") conf.Mqtt.ClientCertFile ∧
      (applyEnv env conf).Sensor.GpioBus
        = override (fromEnvInt env "GPIO_BUS") conf.Sensor.GpioBus ∧
      (applyEnv env conf).Sensor.GpioAddress
        = override (fromEnvInt env "GPIO_ADDRESS") conf.Sensor.GpioAddress := by
  intro env conf
  refine ⟨?_, ?_, ?_, ?_, ?_, ?_, ?_, ?_, ?_, ?_, ?_, ?_, ?_⟩ <;>
    try intro x hx
  all_goals simp_all [applyEnv_eq, override]

/-- C5 witness: with the all-empty environment the interval keeps its prior
value. -/
theorem C5_env_overrides_independent_witness :
    (applyEnv (fun _ => "") DefaultConfig).IntervalSecs
      = DefaultConfig.IntervalSecs :=
  (C5_env_overrides_independent (fun _ => "") DefaultConfig).1
    "not defined" rfl

/-- C8: the environment layer never touches the server CA path — for every
environment and starting config it is left unchanged, and resolution from
defaults leaves it empty. -/
theorem C8_server_ca_not_env_overridable :
    ∀ (env : Env) (conf : Config),
      (applyEnv env conf).Mqtt.ServerCaFile = conf.Mqtt.ServerCaFile ∧
      (ConfigFromEnv env).Mqtt.ServerCaFile = "" := by
  intro env conf
  constructor <;> simp [ConfigFromEnv, applyEnv_eq, DefaultConfig]

/-- C9: a file read failure is wrapped and returned as an error, and a
decode failure aborts resolution with that error before any environment
layering; no configuration is produced in either case. -/
theorem C9_file_errors_abort :
    (∀ (err : String) (decode : String → Except String FileConf),
      ReadJsonConfig (.error err) decode
        = .error ("could not read config from file: " ++ err)) ∧
    (∀ (msg : String) (decode : String → Except String FileConf) (env : Env),
      resolve (.readError msg) decode env
        = .error ("could not read config from file: " ++ msg)) ∧
    (∀ (bytes : String) (decode : String → Except String FileConf)
      (env : Env) (e : String), decode bytes = .error e →
      resolve (.content bytes) decode env = .error e) := by
  refine ⟨fun err decode => rfl, fun msg decode env => rfl, ?_⟩
  intro bytes decode env e h
  simp [resolve, ReadJsonConfig, h]

/-- C9 witness: a concrete decode failure aborts resolution with that
error. -/
theorem C9_file_errors_abort_witness :
    resolve (.content "oops") (fun _ => .error "invalid character")
      (fun _ => "") = .error "invalid character" :=
  C9_file_errors_abort.2.2 "oops" (fun _ => .error "invalid character")
    (fun _ => "") "invalid character" rfl

/-- Any string override that succeeds came from `fromEnv`, so it is
non-empty; hence a field that ends up empty was empty before. -/
theorem override_fromEnv_empty (env : Env) (name old : String)
    (h : override (fromEnv env name) old = "") : old = "" := by
  cases hfe : fromEnv env name with
  | ok v =>
    rw [hfe] at h
    have hv := (fromEnv_ok_iff env name v).1 hfe
    simp only [override] at h
    exact absurd h hv.2
  | error e =>
    rw [hfe] at h
    simpa [override] using h

/-- C10: a variable set to the empty string behaves exactly like an unset
one — the lookup reports "not defined", the field keeps its prior value,
and no string field can ever be overridden to the empty string through the
environment. -/
theorem C10_empty_value_is_unset :
    (∀ (env : Env) (name : String), env (computeEnvName name) = "" →
      fromEnv env name = .error "not defined") ∧
    (∀ (env : Env) (conf : Config),
      (env (computeEnvName "placement") = "" →
        (applyEnv env conf).Placement = conf.Placement) ∧
      (env (computeEnvName "METRICS_ADDR") = "" →
        (applyEnv env conf).MetricConfig = conf.MetricConfig) ∧
      (env (computeEnvName "INTERVAL_S") = "" →
        (applyEnv env conf).IntervalSecs = conf.IntervalSecs) ∧
      (env (computeEnvName "LOG_SENSOR") = "" →
        (applyEnv env conf).LogSensor = conf.LogSensor) ∧
      (env (computeEnvName "DISABLE_MQTT") = "" →
        (applyEnv env conf).DisableMqtt = conf.DisableMqtt) ∧
      (env (computeEnvName "MQTT_HOST") = "" →
        (applyEnv env conf).Mqtt.Host = conf.Mqtt.Host) ∧
      (env (computeEnvName "MQTT_TOPIC") = "" →
        (applyEnv env conf).Mqtt.Topic = conf.Mqtt.Topic) ∧
      (env (computeEnvName "SSL_CLIENT_KEY_FILE") = "" →
        (applyEnv env conf).Mqtt.ClientKeyFile = conf.Mqtt.ClientKeyFile) ∧
      (env (computeEnvName "SSL_CLIENT_CERT_FILE") = "" →
        (applyEnv env conf).Mqtt.ClientCertFile = conf.Mqtt.ClientCertFile)) ∧
    (∀ (env : Env) (conf : Config),
      ((applyEnv env conf).Placement = "" → conf.Placement = "") ∧
      ((applyEnv env conf).MetricConfig = "" → conf.MetricConfig = "") ∧
      ((applyEnv env conf).Mqtt.Host = "" → conf.Mqtt.Host = "") ∧
      ((applyEnv env conf).Mqtt.Topic = "" → conf.Mqtt.Topic = "") ∧
      ((applyEnv env conf).Mqtt.ClientKeyFile = "" →
        conf.Mqtt.ClientKeyFile = "") ∧
      ((applyEnv env conf).Mqtt.ClientCertFile = "" →
        conf.Mqtt.ClientCertFile = "")) := by
  refine ⟨fromEnv_empty, ?_, ?_⟩
  · intro env conf
    refine ⟨?_, ?_, ?_, ?_, ?_, ?_, ?_, ?_, ?_⟩ <;> intro h <;>
      rw [applyEnv_eq] <;>
      simp [override, fromEnv_empty, fromEnvInt_empty, fromEnvBool_empty, h]
  · intro env conf
    refine ⟨?_, ?_, ?_, ?_, ?_, ?_⟩ <;> intro h <;> rw [applyEnv_eq] at h <;>
      exact override_fromEnv_empty _ _ _ h
/-- C10 witness: with the all-empty environment the lookup fails and a
non-empty placement survives unchanged. -/
theorem C10_empty_value_is_unset_witness :
    fromEnv (fun _ => "") "placement" = .error "not defined" ∧
    (applyEnv (fun _ => "")
      { Placement := "attic", MetricConfig := ":9192", IntervalSecs := 30,
        LogSensor := false, DisableMqtt := false, Mqtt := {}, Sensor := {} }
      ).Placement = "attic" :=
  ⟨C10_empty_value_is_unset.1 (fun _ => "") "placement" rfl,
   (C10_empty_value_is_unset.2.1 (fun _ => "") _).1 rfl⟩

end GobotBme280
